import Mathlib

/-
Verification of the swupdate-cli client (swupdate-client.go) against its
natural-language specification.

The Go program is shallowly embedded: each function that the claims are
about is translated into a pure Lean function.  Effects are made explicit:

* a call to `logMessage(msgType, level, message)` is modelled as one
  `LogRecord` appended to the function's output list (the timestamp taken
  by `time.Now()` is omitted — no claim mentions it);
* fallible I/O steps (file open, stat, HTTP round trip, ...) are supplied
  by a "world" structure holding the outcome of each step in program
  order, so the functions stay total and executable;
* lines written through Go's `log.Printf` (stderr warnings) are modelled
  as `RunRecord.warn` entries, distinct from `logMessage` records.
-/

namespace SWUpdate

/-- Configuration of the client, mirroring the Go `Config` struct.
`Timeout` (a `time.Duration`) is carried as integer nanoseconds; no claim
inspects it. -/
structure Config where
  ipAddress : String := ""
  port : Int := 0
  filename : String := ""
  timeout : Int := 0
  verbose : Bool := false
  jsonOutput : Bool := false
  tls : Bool := false
  insecureTLS : Bool := false
  certFile : String := ""
  clientCertFile : String := ""
  clientKeyFile : String := ""
deriving DecidableEq, Repr

/-- A WebSocket event, mirroring the Go `SWUpdateEvent` struct.  All fields
are strings; a missing JSON field decodes to the empty string. -/
structure SWUpdateEvent where
  type : String := ""
  level : String := ""
  text : String := ""
  number : String := ""
  step : String := ""
  name : String := ""
  percent : String := ""
  status : String := ""
  source : String := ""
deriving DecidableEq, Repr

/-- One invocation of `logMessage`: category, level and message text (the
spec's LogRecord, without the timestamp). -/
structure LogRecord where
  msgType : String
  level : String
  message : String
deriving DecidableEq, Repr

/-- Outcome of one HTTP round trip as the client sees it: status code and
response body. -/
structure HTTPResponse where
  statusCode : Nat
  body : String
deriving DecidableEq, Repr

/-- Lookup table of `handleStatusEvent` (the Go `statusMessages` map),
written as the equivalent decidable chain: level and fixed phrase for the
known lifecycle values, `none` for everything else. -/
def statusMessages (s : String) : Option (String × String) :=
  if s = "START" then some ("INFO", "Update started")
  else if s = "RUN" then some ("INFO", "Update running")
  else if s = "SUCCESS" then some ("INFO", "Update completed successfully")
  else if s = "FAILURE" then some ("ERROR", "Update failed")
  else if s = "DONE" then some ("INFO", "Update process finished")
  else if s = "IDLE" then some ("INFO", "System idle")
  else none

/-- Go `handleStatusEvent`: look the status up in `statusMessages`; a known
status emits its fixed record except that IDLE is dropped when not verbose;
an unknown status echoes the raw value at INFO. -/
def handleStatusEvent (verbose : Bool) (event : SWUpdateEvent) : List LogRecord :=
  match statusMessages event.status with
  | some lm =>
      if event.status = "IDLE" ∧ ¬verbose then []
      else [⟨"status", lm.1, lm.2⟩]
  | none => [⟨"status", "INFO", "Status: " ++ event.status⟩]

/-- Go `handleStepEvent`: percent+name emit the installing line, else
step+number emit the step line, else nothing. -/
def handleStepEvent (event : SWUpdateEvent) : List LogRecord :=
  if event.percent ≠ "" ∧ event.name ≠ "" then
    [⟨"progress", "INFO", "Installing " ++ event.name ++ ": " ++ event.percent ++ "%"⟩]
  else if event.step ≠ "" ∧ event.number ≠ "" then
    [⟨"progress", "INFO", "Step " ++ event.step ++ " of " ++ event.number⟩]
  else []

/-- Go `handleMessageEvent`: ERROR and WARN pass through with the event
text; any other level is INFO, only when verbose and the text is
non-empty. -/
def handleMessageEvent (verbose : Bool) (event : SWUpdateEvent) : List LogRecord :=
  if event.level = "ERROR" then [⟨"message", "ERROR", event.text⟩]
  else if event.level = "WARN" then [⟨"message", "WARN", event.text⟩]
  else if verbose ∧ event.text ≠ "" then [⟨"message", "INFO", event.text⟩]
  else []

/-- Go `handleInfoEvent`. -/
def handleInfoEvent (verbose : Bool) (event : SWUpdateEvent) : List LogRecord :=
  if verbose ∧ event.text ≠ "" then [⟨"info", "INFO", event.text⟩] else []

/-- Go `handleSourceEvent`. -/
def handleSourceEvent (verbose : Bool) (event : SWUpdateEvent) : List LogRecord :=
  if verbose then [⟨"source", "INFO", "Update source: " ++ event.source⟩] else []

/-- Go `handleUnknownEvent`. -/
def handleUnknownEvent (verbose : Bool) (event : SWUpdateEvent) : List LogRecord :=
  if verbose then [⟨"unknown", "INFO", "Unknown event type: " ++ event.type⟩] else []

/-- One line the event handler prints: in JSON mode the event itself is
marshalled verbatim (`Output.jsonEvent` carries the event; the JSON
encoding performed by the external library is not modelled), otherwise a
classified log record. -/
inductive Output where
  | jsonEvent (e : SWUpdateEvent)
  | record (r : LogRecord)
deriving DecidableEq, Repr

/-- Go `handleWebSocketEvent`: in JSON-output mode, marshal the event and
return at once; otherwise dispatch on the event type to the classifying
handlers. -/
def handleWebSocketEvent (c : Config) (event : SWUpdateEvent) : List Output :=
  if c.jsonOutput then [Output.jsonEvent event]
  else
    (match event.type with
     | "status" => handleStatusEvent c.verbose event
     | "step" => handleStepEvent event
     | "message" => handleMessageEvent c.verbose event
     | "info" => handleInfoEvent c.verbose event
     | "source" => handleSourceEvent c.verbose event
     | _ => handleUnknownEvent c.verbose event).map Output.record

/-- Two-digit zero-padded rendering of a number below 100. -/
def pad2 (n : Nat) : String :=
  if n < 10 then "0" ++ toString n else toString n

/-- Decimal rendering of a byte count as megabytes with two fractional
digits, modelling Go's `fmt.Sprintf` with verb %.2f applied to
`float64(size)/(1024*1024)`; the binary floating-point representation is
abstracted by exact rational rounding (round half to even), which agrees
on all realistic file sizes. -/
def formatMB (size : Nat) : String :=
  let scaled := size * 100
  let q := scaled / 1048576
  let r := scaled % 1048576
  let rounded :=
    if 2 * r < 1048576 then q
    else if 1048576 < 2 * r then q + 1
    else if q % 2 = 0 then q else q + 1
  toString (rounded / 100) ++ "." ++ pad2 (rounded % 100)

/-- Go `path/filepath.Base` for slash-separated paths (the separator on
the platforms this client targets): empty path gives ".", a path of only
separators gives "/", otherwise the last element after trailing
separators are removed. -/
def filepathBase (path : String) : String :=
  if path = "" then "."
  else
    let trimmed := (path.toList.reverse.dropWhile (· = '/')).reverse
    if trimmed = [] then "/"
    else String.mk (trimmed.reverse.takeWhile (· ≠ '/')).reverse

/-- The INFO line `uploadFirmware` emits before starting: file base name
and human-readable size. -/
def uploadStartMsg (base : String) (size : Nat) : String :=
  "Uploading firmware: " ++ base ++ " (" ++ formatMB size ++ " MB)"

/-- Decidable equality for `Except`, needed so the world structures can
be compared by `decide` in concrete evaluations. -/
instance {ε α : Type} [DecidableEq ε] [DecidableEq α] : DecidableEq (Except ε α) :=
  fun a b =>
    match a, b with
    | .error x, .error y =>
        if h : x = y then isTrue (congrArg Except.error h)
        else isFalse (fun hc => h (Except.error.inj hc))
    | .error _, .ok _ => isFalse (fun hc => Except.noConfusion hc)
    | .ok _, .error _ => isFalse (fun hc => Except.noConfusion hc)
    | .ok x, .ok y =>
        if h : x = y then isTrue (congrArg Except.ok h)
        else isFalse (fun hc => h (Except.ok.inj hc))

/-- Environment of one `uploadFirmware` run: the outcome of each fallible
step, in program order.  `openFile` is `os.Open`, `statFile` is
`file.Stat` (yielding the size), `createForm` is
`multipartWriter.CreateFormFile`, `copyFile` is `io.Copy`, `newRequest`
is `http.NewRequestWithContext`, `tlsConfig` is `createTLSConfig`
(consulted only when TLS is enabled), and `doRequest` is `client.Do`. -/
structure UploadWorld where
  openFile : Except String Unit
  statFile : Except String Nat
  createForm : Except String Unit
  copyFile : Except String Unit
  newRequest : Except String Unit
  tlsConfig : Except String Unit
  doRequest : Except String HTTPResponse
deriving DecidableEq, Repr

/-- Go `uploadFirmware`: open and stat the artifact, emit the start
record, build the multipart request, send it, and treat any response
whose status is not 200 (`http.StatusOK`) as an error carrying the status
code and the response body.  Returns the `logMessage` records emitted and
the function's error result. -/
def uploadFirmware (c : Config) (w : UploadWorld) :
    List LogRecord × Except String Unit :=
  match w.openFile with
  | .error e => ([], .error ("failed to open file " ++ c.filename ++ ": " ++ e))
  | .ok _ =>
    match w.statFile with
    | .error e => ([], .error ("failed to get file stats: " ++ e))
    | .ok size =>
      let startRec : LogRecord :=
        ⟨"upload", "INFO", uploadStartMsg (filepathBase c.filename) size⟩
      match w.createForm with
      | .error e => ([startRec], .error ("failed to create form file: " ++ e))
      | .ok _ =>
        match w.copyFile with
        | .error e => ([startRec], .error ("failed to copy file data: " ++ e))
        | .ok _ =>
          match w.newRequest with
          | .error e => ([startRec], .error ("failed to create request: " ++ e))
          | .ok _ =>
            match (if c.tls then w.tlsConfig else .ok ()) with
            | .error e =>
                ([startRec], .error ("failed to create TLS configuration: " ++ e))
            | .ok _ =>
              match w.doRequest with
              | .error e =>
                  ([startRec], .error ("failed to upload firmware: " ++ e))
              | .ok resp =>
                if resp.statusCode ≠ 200 then
                  ([startRec],
                   .error ("upload failed with status " ++ toString resp.statusCode
                     ++ ": " ++ resp.body))
                else
                  ([startRec, ⟨"upload", "INFO", "Firmware uploaded successfully"⟩],
                   .ok ())

/-- Environment of one `restartDevice` run, analogous to `UploadWorld`. -/
structure RestartWorld where
  newRequest : Except String Unit
  tlsConfig : Except String Unit
  doRequest : Except String HTTPResponse
deriving DecidableEq, Repr

/-- Go `restartDevice`: POST to /restart; any response whose status is
not 200 is an error carrying status code and body; on success one INFO
record is emitted. -/
def restartDevice (c : Config) (w : RestartWorld) :
    List LogRecord × Except String Unit :=
  match w.newRequest with
  | .error e => ([], .error ("failed to create restart request: " ++ e))
  | .ok _ =>
    match (if c.tls then w.tlsConfig else .ok ()) with
    | .error e => ([], .error ("failed to create TLS configuration: " ++ e))
    | .ok _ =>
      match w.doRequest with
      | .error e => ([], .error ("failed to restart device: " ++ e))
      | .ok resp =>
        if resp.statusCode ≠ 200 then
          ([], .error ("restart failed with status " ++ toString resp.statusCode
            ++ ": " ++ resp.body))
        else
          ([⟨"restart", "INFO", "Device restart initiated"⟩], .ok ())

/-- One line of the orchestrator's run output: either a stderr warning
written through `log.Printf` / `log.Println`, or a `logMessage` record
from a sub-operation. -/
inductive RunRecord where
  | warn (msg : String)
  | record (r : LogRecord)
deriving DecidableEq, Repr

/-- Warning lines `Update` prints when `connectWebSocket` fails; nothing
is printed when it succeeds. -/
def wsWarnings (connectWS : Except String Unit) : List RunRecord :=
  match connectWS with
  | .error e =>
      [.warn ("Warning: Failed to connect to WebSocket: " ++ e),
       .warn "Proceeding without progress monitoring..."]
  | .ok _ => []

/-- Go `Update`: try to connect the WebSocket (failure gives two warning
lines and the run proceeds), run the upload (its error is the only fatal
path), then, when requested, run the restart, whose failure is only a
warning.  The progress-listener goroutine's own records and the
two-second settling sleep are outside this sequential model; `connectWS`
is the outcome of `connectWebSocket`. -/
def update (c : Config) (restart : Bool) (connectWS : Except String Unit)
    (uw : UploadWorld) (rw : RestartWorld) :
    List RunRecord × Except String Unit :=
  match (uploadFirmware c uw).2 with
  | .error e =>
      (wsWarnings connectWS ++ (uploadFirmware c uw).1.map .record, .error e)
  | .ok _ =>
    if restart then
      match (restartDevice c rw).2 with
      | .error e =>
          (wsWarnings connectWS ++ (uploadFirmware c uw).1.map .record
            ++ (restartDevice c rw).1.map .record
            ++ [.warn ("Warning: Failed to restart device: " ++ e)], .ok ())
      | .ok _ =>
          (wsWarnings connectWS ++ (uploadFirmware c uw).1.map .record
            ++ (restartDevice c rw).1.map .record, .ok ())
    else (wsWarnings connectWS ++ (uploadFirmware c uw).1.map .record, .ok ())

/-- Resulting transport-security configuration, mirroring the fields of
Go's `tls.Config` that `createTLSConfig` touches: the skip-verification
flag, whether a custom root pool was installed, and how many client
certificates were loaded (Go installs a one-element slice). -/
structure TLSConfig where
  insecureSkipVerify : Bool
  hasRootCAs : Bool
  certificates : Nat
deriving DecidableEq, Repr

/-- Environment of one `createTLSConfig` run: outcome of reading the CA
file (`os.ReadFile`), whether the pool accepts the PEM data
(`AppendCertsFromPEM`), and the outcome of `tls.LoadX509KeyPair`. -/
structure TLSWorld where
  readCAFile : Except String Unit
  appendOK : Bool
  loadKeyPair : Except String Unit
deriving DecidableEq, Repr

/-- Go `createTLSConfig`: start from the skip-verify flag; when a CA file
is named, read and parse it (either step failing is an error); when both
a client certificate file and a client key file are named, load the pair
(failure is an error) and install it — with only one of the two named,
this branch is skipped and no client identity is configured. -/
def createTLSConfig (c : Config) (w : TLSWorld) : Except String TLSConfig :=
  let base : TLSConfig := ⟨c.insecureTLS, false, 0⟩
  let withCA : Except String TLSConfig :=
    if c.certFile ≠ "" then
      match w.readCAFile with
      | .error e => .error ("failed to read CA certificate file: " ++ e)
      | .ok _ =>
        if ¬w.appendOK then .error "failed to parse CA certificate"
        else .ok { base with hasRootCAs := true }
    else .ok base
  match withCA with
  | .error e => .error e
  | .ok t =>
    if c.clientCertFile ≠ "" ∧ c.clientKeyFile ≠ "" then
      match w.loadKeyPair with
      | .error e => .error ("failed to load client certificate: " ++ e)
      | .ok _ => .ok { t with certificates := 1 }
    else .ok t

/-- Fixture: configuration used by concrete witnesses — a 3-byte artifact
named fw.swu, TLS enabled so the TLS branches are exercised, verbose
off. -/
def cfgPlain : Config := { filename := "fw.swu", tls := true }

/-- Fixture: configuration naming a client certificate file but no client
key file (and no CA file). -/
def cfgHalfPair : Config := { clientCertFile := "client.pem" }

/-- Fixture: configuration with no transport-security paths at all. -/
def cfgAnon : Config := {}

/-- Fixture: TLS environment in which every step succeeds. -/
def tlsWorldOK : TLSWorld := ⟨.ok (), true, .ok ()⟩

/-- Fixture: upload environment where every local step succeeds, the
artifact is 3 bytes, and the server answers `resp`. -/
def okWorld (resp : HTTPResponse) : UploadWorld :=
  ⟨.ok (), .ok 3, .ok (), .ok (), .ok (), .ok (), .ok resp⟩

/-- Fixture: restart environment where request creation and TLS setup
succeed and the server answers `resp`. -/
def okRestartWorld (resp : HTTPResponse) : RestartWorld :=
  ⟨.ok (), .ok (), .ok resp⟩

/-- Fixture: a status event with lifecycle value IDLE. -/
def evIdle : SWUpdateEvent := { type := "status", status := "IDLE" }

/-- Fixture: a message event at level ERROR whose text is empty. -/
def evErrEmpty : SWUpdateEvent := { type := "message", level := "ERROR" }

/-- Fixture: a step event carrying a component name and a percentage. -/
def evStep : SWUpdateEvent := { type := "step", name := "kernel", percent := "50" }

/-- C5: for every event of kind status (verbose filtering considered,
JSON mode excluded), classification follows the fixed table: START, RUN
and DONE each yield an INFO record with their fixed phrase; SUCCESS
yields an INFO record; FAILURE yields an ERROR record; IDLE is suppressed
when verbose is false and yields exactly one INFO record when verbose is
true; any other status value yields an INFO record echoing the raw
value. -/
theorem C5_status_classification_table (verbose : Bool) (e : SWUpdateEvent) :
    (e.status = "START" →
      handleStatusEvent verbose e = [⟨"status", "INFO", "Update started"⟩]) ∧
    (e.status = "RUN" →
      handleStatusEvent verbose e = [⟨"status", "INFO", "Update running"⟩]) ∧
    (e.status = "DONE" →
      handleStatusEvent verbose e = [⟨"status", "INFO", "Update process finished"⟩]) ∧
    (e.status = "SUCCESS" →
      handleStatusEvent verbose e = [⟨"status", "INFO", "Update completed successfully"⟩]) ∧
    (e.status = "FAILURE" →
      handleStatusEvent verbose e = [⟨"status", "ERROR", "Update failed"⟩]) ∧
    (e.status = "IDLE" →
      handleStatusEvent verbose e =
        if verbose then [⟨"status", "INFO", "System idle"⟩] else []) ∧
    (e.status ∉ ["START", "RUN", "SUCCESS", "FAILURE", "DONE", "IDLE"] →
      handleStatusEvent verbose e = [⟨"status", "INFO", "Status: " ++ e.status⟩]) := by
  refine ⟨?_, ?_, ?_, ?_, ?_, ?_, ?_⟩ <;> intro h
  · simp [handleStatusEvent, statusMessages, h]
  · simp [handleStatusEvent, statusMessages, h]
  · simp [handleStatusEvent, statusMessages, h]
  · simp [handleStatusEvent, statusMessages, h]
  · simp [handleStatusEvent, statusMessages, h]
  · cases verbose <;> simp [handleStatusEvent, statusMessages, h]
  · simp only [List.mem_cons, List.not_mem_nil, or_false, not_or] at h
    obtain ⟨h1, h2, h3, h4, h5, h6⟩ := h
    simp [handleStatusEvent, statusMessages, h1, h2, h3, h4, h5, h6]

/-- Witness for C5 at the IDLE event: suppressed when verbose is false,
exactly one INFO record when verbose is true. -/
theorem C5_status_classification_table_witness :
    handleStatusEvent true evIdle = [⟨"status", "INFO", "System idle"⟩] ∧
    handleStatusEvent false evIdle = [] := by
  have h1 := (C5_status_classification_table true evIdle).2.2.2.2.2.1 rfl
  have h2 := (C5_status_classification_table false evIdle).2.2.2.2.2.1 rfl
  exact ⟨by simpa using h1, by simpa using h2⟩

/-- C6: for every event of kind message, a record with severity ERROR or
WARN taken from the event's level field is always emitted when level is
ERROR or WARN respectively (independent of verbose and of whether the
text is empty), and an event with any other level is emitted as INFO only
when verbose is true and the text is non-empty; otherwise it is
suppressed. -/
theorem C6_message_classification (verbose : Bool) (e : SWUpdateEvent) :
    (e.level = "ERROR" →
      handleMessageEvent verbose e = [⟨"message", "ERROR", e.text⟩]) ∧
    (e.level = "WARN" →
      handleMessageEvent verbose e = [⟨"message", "WARN", e.text⟩]) ∧
    (e.level ≠ "ERROR" → e.level ≠ "WARN" →
      handleMessageEvent verbose e =
        if verbose ∧ e.text ≠ "" then [⟨"message", "INFO", e.text⟩] else []) := by
  refine ⟨?_, ?_, ?_⟩
  · intro h; simp [handleMessageEvent, h]
  · intro h; simp [handleMessageEvent, h]
  · intro h1 h2; simp [handleMessageEvent, h1, h2]

/-- Witness for C6 at an ERROR-level event with empty text and verbose
off: the ERROR record is still emitted. -/
theorem C6_message_classification_witness :
    evErrEmpty.level = "ERROR" ∧
    handleMessageEvent false evErrEmpty = [⟨"message", "ERROR", ""⟩] := by
  have h := (C6_message_classification false evErrEmpty).1 rfl
  exact ⟨rfl, by simpa using h⟩

/-- C7: for every event of kind step: if both percent and component name
are present an INFO record installing-name-percent is emitted; otherwise
if both step and stepTotal (the `number` field) are present an INFO
record step-of-total is emitted; otherwise the event is suppressed and no
record is emitted. -/
theorem C7_step_classification (e : SWUpdateEvent) :
    (e.percent ≠ "" → e.name ≠ "" →
      handleStepEvent e =
        [⟨"progress", "INFO", "Installing " ++ e.name ++ ": " ++ e.percent ++ "%"⟩]) ∧
    (¬(e.percent ≠ "" ∧ e.name ≠ "") → e.step ≠ "" → e.number ≠ "" →
      handleStepEvent e =
        [⟨"progress", "INFO", "Step " ++ e.step ++ " of " ++ e.number⟩]) ∧
    (¬(e.percent ≠ "" ∧ e.name ≠ "") → ¬(e.step ≠ "" ∧ e.number ≠ "") →
      handleStepEvent e = []) := by
  refine ⟨?_, ?_, ?_⟩
  · intro h1 h2; simp [handleStepEvent, h1, h2]
  · intro h1 h2 h3; simp [handleStepEvent, h1, h2, h3]
  · intro h1 h2; simp [handleStepEvent, h1, h2]

/-- Witness for C7 at a step event with component name and percent. -/
theorem C7_step_classification_witness :
    handleStepEvent evStep = [⟨"progress", "INFO", "Installing kernel: 50%"⟩] := by
  have h := (C7_step_classification evStep).1 (by decide) (by decide)
  simpa using h

/-- C10: for every decoded WebSocket event, when structured JSON output
is enabled the event handler emits exactly one record consisting of the
event marshalled verbatim as JSON, independent of the event's kind, of
its field values, and of the verbose flag — the classification decision
table is bypassed entirely in this mode. -/
theorem C10_json_mode_verbatim (c : Config) (e : SWUpdateEvent)
    (h : c.jsonOutput = true) :
    handleWebSocketEvent c e = [Output.jsonEvent e] := by
  simp [handleWebSocketEvent, h]

/-- Witness for C10: a status event under a JSON-output configuration is
echoed verbatim as the only output line. -/
theorem C10_json_mode_verbatim_witness :
    handleWebSocketEvent { jsonOutput := true, verbose := true } evIdle =
      [Output.jsonEvent evIdle] :=
  C10_json_mode_verbatim { jsonOutput := true, verbose := true } evIdle rfl

/-- C1 counterexample: the claim says every 2xx response is a success,
but on a 201 response — squarely in the 2xx class — the upload returns an
error carrying the status code and body, because the code compares the
status against exactly 200 (`http.StatusOK`). -/
theorem C1_counterexample_status201 :
    (200 ≤ 201 ∧ 201 < 300) ∧
    (uploadFirmware cfgPlain (okWorld ⟨201, "Created"⟩)).2 =
      .error "upload failed with status 201: Created" := by
  constructor
  · decide
  · rfl

/-- C1 as amended: for every HTTP response to the upload request, the
upload returns success if and only if the response status is exactly 200;
every non-200 response (including other 2xx statuses) yields a fatal
error carrying the response status code and the response body. -/
theorem C1_upload_success_iff_status200 (c : Config) (w : UploadWorld)
    (resp : HTTPResponse) (n : Nat)
    (hopen : w.openFile = .ok ()) (hstat : w.statFile = .ok n)
    (hform : w.createForm = .ok ()) (hcopy : w.copyFile = .ok ())
    (hreq : w.newRequest = .ok ())
    (htls : c.tls = true → w.tlsConfig = .ok ())
    (hdo : w.doRequest = .ok resp) :
    ((uploadFirmware c w).2 = .ok () ↔ resp.statusCode = 200) ∧
    (resp.statusCode ≠ 200 →
      (uploadFirmware c w).2 =
        .error ("upload failed with status " ++ toString resp.statusCode
          ++ ": " ++ resp.body)) := by
  have htls' : (if c.tls then w.tlsConfig else Except.ok ()) = Except.ok () := by
    cases hc : c.tls
    · simp
    · simpa using htls hc
  by_cases hs : resp.statusCode = 200 <;>
    simp [uploadFirmware, hopen, hstat, hform, hcopy, hreq, htls', hdo, hs]

/-- Witness for C1 at a 404 response: the result is not success and the
error carries status and body. -/
theorem C1_upload_success_iff_status200_witness :
    ¬(uploadFirmware cfgPlain (okWorld ⟨404, "not found"⟩)).2 = .ok () ∧
    (uploadFirmware cfgPlain (okWorld ⟨404, "not found"⟩)).2 =
      .error "upload failed with status 404: not found" := by
  have h := C1_upload_success_iff_status200 cfgPlain (okWorld ⟨404, "not found"⟩)
    ⟨404, "not found"⟩ 3 rfl rfl rfl rfl rfl (fun _ => rfl) rfl
  refine ⟨fun hc => by simpa using h.1.mp hc, ?_⟩
  have h2 := h.2 (by decide)
  simpa using h2

/-- C2 counterexample: the claim says that supplying exactly one of the
client certificate and key paths makes the builder fail, but with only
the certificate path supplied `createTLSConfig` succeeds and configures
no client identity. -/
theorem C2_counterexample_half_pair_accepted :
    cfgHalfPair.clientCertFile ≠ "" ∧ cfgHalfPair.clientKeyFile = "" ∧
    createTLSConfig cfgHalfPair tlsWorldOK = .ok ⟨false, false, 0⟩ := by
  refine ⟨by decide, rfl, rfl⟩

/-- C2 as amended: when at most one of the client certificate and key
paths is supplied (and no CA file is named), the builder succeeds with no
client identity configured — the partial pair is silently ignored, the
same as when both are absent. -/
theorem C2_half_pair_silently_ignored (c : Config) (w : TLSWorld)
    (hca : c.certFile = "")
    (hpair : c.clientCertFile = "" ∨ c.clientKeyFile = "") :
    createTLSConfig c w = .ok ⟨c.insecureTLS, false, 0⟩ := by
  rcases hpair with hp | hp <;> simp [createTLSConfig, hca, hp]

/-- Witness for C2: the half-pair configuration and the fully anonymous
configuration both build the same identity-free TLS configuration. -/
theorem C2_half_pair_silently_ignored_witness :
    createTLSConfig cfgHalfPair tlsWorldOK = .ok ⟨false, false, 0⟩ ∧
    createTLSConfig cfgAnon tlsWorldOK = .ok ⟨false, false, 0⟩ := by
  have h1 := C2_half_pair_silently_ignored cfgHalfPair tlsWorldOK rfl (Or.inr rfl)
  have h2 := C2_half_pair_silently_ignored cfgAnon tlsWorldOK rfl (Or.inl rfl)
  exact ⟨by simpa using h1, by simpa using h2⟩

/-- C3: for every run in which the upload succeeds and restart is
requested, a failure of the restart operation (non-2xx response or
transport error, surfacing as an error result) is reported as a
warning-level record and the run's overall outcome is still success. -/
theorem C3_restart_failure_is_warning_only (c : Config)
    (cw : Except String Unit) (uw : UploadWorld) (rw : RestartWorld)
    (e : String)
    (hu : (uploadFirmware c uw).2 = .ok ())
    (hr : (restartDevice c rw).2 = .error e) :
    (update c true cw uw rw).2 = .ok () ∧
    RunRecord.warn ("Warning: Failed to restart device: " ++ e)
      ∈ (update c true cw uw rw).1 := by
  simp [update, hu, hr]

/-- Witness for C3: upload answered 200, restart answered 500; the run
succeeds and carries the restart warning. -/
theorem C3_restart_failure_is_warning_only_witness :
    (update cfgPlain true (.ok ()) (okWorld ⟨200, ""⟩)
        (okRestartWorld ⟨500, "boom"⟩)).2 = .ok () ∧
    RunRecord.warn ("Warning: Failed to restart device: "
        ++ "restart failed with status 500: boom")
      ∈ (update cfgPlain true (.ok ()) (okWorld ⟨200, ""⟩)
          (okRestartWorld ⟨500, "boom"⟩)).1 :=
  C3_restart_failure_is_warning_only cfgPlain (.ok ()) (okWorld ⟨200, ""⟩)
    (okRestartWorld ⟨500, "boom"⟩) "restart failed with status 500: boom"
    rfl rfl

/-- C4: for every configuration whose upload succeeds, the orchestrator's
outcome is success regardless of whether the progress listener's
connection attempt succeeds or fails; a listener connection failure is
reported as a warning and the upload still runs (its records appear in
the output). -/
theorem C4_listener_failure_nonfatal (c : Config) (restart : Bool)
    (cw : Except String Unit) (uw : UploadWorld) (rw : RestartWorld)
    (hu : (uploadFirmware c uw).2 = .ok ()) :
    (update c restart cw uw rw).2 = .ok () ∧
    ∀ e, cw = .error e →
      RunRecord.warn ("Warning: Failed to connect to WebSocket: " ++ e)
        ∈ (update c restart cw uw rw).1 ∧
      ∀ r ∈ (uploadFirmware c uw).1,
        RunRecord.record r ∈ (update c restart cw uw rw).1 := by
  constructor
  · cases restart <;> cases hr : (restartDevice c rw).2 <;> simp [update, hu, hr]
  · intro e hcw
    subst hcw
    constructor
    · cases restart <;> cases hr : (restartDevice c rw).2 <;>
        simp [update, hu, hr, wsWarnings]
    · intro r hrm
      cases restart <;> cases hr : (restartDevice c rw).2 <;>
        simp [update, hu, hr, wsWarnings] <;> tauto

/-- Witness for C4: the listener dial fails, the upload answers 200, no
restart; the run succeeds, the warning is present, and both upload
records appear. -/
theorem C4_listener_failure_nonfatal_witness :
    (update cfgPlain false (.error "dial refused") (okWorld ⟨200, ""⟩)
        (okRestartWorld ⟨200, ""⟩)).2 = .ok () ∧
    (RunRecord.warn ("Warning: Failed to connect to WebSocket: "
        ++ "dial refused")
      ∈ (update cfgPlain false (.error "dial refused") (okWorld ⟨200, ""⟩)
          (okRestartWorld ⟨200, ""⟩)).1 ∧
     ∀ r ∈ (uploadFirmware cfgPlain (okWorld ⟨200, ""⟩)).1,
       RunRecord.record r
         ∈ (update cfgPlain false (.error "dial refused") (okWorld ⟨200, ""⟩)
             (okRestartWorld ⟨200, ""⟩)).1) := by
  have h := C4_listener_failure_nonfatal cfgPlain false (.error "dial refused")
    (okWorld ⟨200, ""⟩) (okRestartWorld ⟨200, ""⟩) rfl
  exact ⟨h.1, h.2 "dial refused" rfl⟩

/-- C8: for every run with a readable artifact, verbose off, and an
upload endpoint answering 200, the upload emits exactly two records — one
INFO record before starting whose message includes the human-readable
file size, and one INFO record upon success — and the outcome is
success. -/
theorem C8_upload_success_two_records (c : Config) (w : UploadWorld)
    (n : Nat) (body : String)
    (_hv : c.verbose = false)
    (hopen : w.openFile = .ok ()) (hstat : w.statFile = .ok n)
    (hform : w.createForm = .ok ()) (hcopy : w.copyFile = .ok ())
    (hreq : w.newRequest = .ok ())
    (htls : c.tls = true → w.tlsConfig = .ok ())
    (hdo : w.doRequest = .ok ⟨200, body⟩) :
    uploadFirmware c w =
      ([⟨"upload", "INFO", uploadStartMsg (filepathBase c.filename) n⟩,
        ⟨"upload", "INFO", "Firmware uploaded successfully"⟩], .ok ()) ∧
    (uploadFirmware c w).1.length = 2 := by
  have htls' : (if c.tls then w.tlsConfig else Except.ok ()) = Except.ok () := by
    cases hc : c.tls
    · simp
    · simpa using htls hc
  constructor
  · simp [uploadFirmware, hopen, hstat, hform, hcopy, hreq, htls', hdo]
  · simp [uploadFirmware, hopen, hstat, hform, hcopy, hreq, htls', hdo]

/-- Witness for C8: a 3-byte artifact, verbose off, endpoint answering
200 — the two records, with the size rendered in the start message. -/
theorem C8_upload_success_two_records_witness :
    uploadFirmware cfgPlain (okWorld ⟨200, ""⟩) =
      ([⟨"upload", "INFO", "Uploading firmware: fw.swu (0.00 MB)"⟩,
        ⟨"upload", "INFO", "Firmware uploaded successfully"⟩], .ok ()) ∧
    (uploadFirmware cfgPlain (okWorld ⟨200, ""⟩)).1.length = 2 := by
  have h := C8_upload_success_two_records cfgPlain (okWorld ⟨200, ""⟩) 3 ""
    rfl rfl rfl rfl rfl rfl (fun _ => rfl) rfl
  exact ⟨h.1.trans (by decide), h.2⟩

end SWUpdate
